import Mathlib

/-!
Shallow embedding of the Serper multi-category search aggregator
(`src/lib/tools/search/providers/serper.ts`).

Modelling conventions:
* A JavaScript value that may be `undefined`/`null` is an `Option`.
* JS falsy coalescing `x || d` on strings is `orFalsy`; nullish `x ?? d`
  is `orNullish` (only `undefined`/`null` are replaced, `""` is kept).
* Each category fetch is summarised by a `FetchOutcome`: `failure` covers a
  non-ok HTTP status, a network exception, or a malformed body (every path
  that ends in the handler's `catch`/early return); `success` carries the
  parsed payload, where the payload list itself may be `undefined`
  (`data.organic` etc. may be missing even on a 200 response).
* The `await Promise.all` fan-out is embedded as explicit state passing in
  the order the promises are created (web, video, image, news): in the
  source's single-threaded model the web handler's single assignment is
  expected to happen before the news handler's read-append-write, which is
  the documented completion order.
* `search` returns both the list of HTTP requests it issues and its
  `Except` outcome, so that claims about network activity are statable.
-/

/-- JS truthiness of an optional string: `undefined`, `null` and `""` are falsy
(this is the `!this.apiKey` test). -/
def isFalsyStr : Option String → Bool
  | none => true
  | some s => s = ""

/-- JS `x || d` for an optional string `x`: the default replaces both a
missing value and the empty string. -/
def orFalsy (v : Option String) (d : String) : String :=
  match v with
  | none => d
  | some s => if s = "" then d else s

/-- JS `x ?? d` for an optional string `x`: the default replaces only a
missing value, never the empty string. -/
def orNullish (v : Option String) (d : String) : String :=
  v.getD d

/-- The four content categories of `options.content_types`. -/
inductive ContentType
  | web
  | video
  | image
  | news
deriving DecidableEq, Repr

/-- Raw upstream item for the web and news endpoints
(interface `SerperWebResult`); fields may be absent at run time. -/
structure SerperWebResult where
  title : Option String
  link : Option String
  snippet : Option String
  position : Option Nat
deriving DecidableEq, Repr

/-- Raw upstream item for the videos endpoint (interface `SerperVideoResult`). -/
structure SerperVideoResult where
  title : Option String
  link : Option String
  snippet : Option String
  imageUrl : Option String
  duration : Option String
  source : Option String
  channel : Option String
  date : Option String
  position : Option Nat
deriving DecidableEq, Repr

/-- Raw upstream item for the images endpoint (interface `SerperImageResult`). -/
structure SerperImageResult where
  title : Option String
  imageUrl : Option String
  imageWidth : Option Nat
  imageHeight : Option Nat
  thumbnailUrl : Option String
  thumbnailWidth : Option Nat
  thumbnailHeight : Option Nat
  source : Option String
  domain : Option String
  link : Option String
  position : Option Nat
deriving DecidableEq, Repr

/-- Normalized web/news item: `{ title, url: result.link, content }`.
`url` is copied verbatim from the upstream `link`, so it stays optional. -/
structure WebResultItem where
  title : String
  url : Option String
  content : String
deriving DecidableEq, Repr

/-- Normalized video item (`SerperSearchResultItem` in `@/lib/types`). -/
structure SerperSearchResultItem where
  title : String
  link : String
  snippet : String
  imageUrl : String
  duration : String
  source : String
  channel : String
  date : String
  position : Nat
deriving DecidableEq, Repr

/-- Normalized image item (`SearchImageItem` in `@/lib/types`). -/
structure SearchImageItem where
  title : String
  link : String
  thumbnailUrl : String
deriving DecidableEq, Repr

/-- The aggregate result object built by `search`. -/
structure SearchResults where
  results : List WebResultItem
  images : List SearchImageItem
  videos : List SerperSearchResultItem
  query : String
  number_of_results : Nat
deriving DecidableEq, Repr

/-- Outcome of one category's fetch: `failure` is any path that reaches the
handler's `catch` block or early return (non-ok status, transport error,
malformed body); `success` carries the parsed payload. -/
inductive FetchOutcome (α : Type)
  | failure
  | success (payload : α)
deriving DecidableEq, Repr

/-- The four backend endpoints' behaviour for one call, one outcome per
category endpoint. -/
structure Backend where
  web : FetchOutcome (Option (List SerperWebResult))
  videos : FetchOutcome (Option (List SerperVideoResult))
  images : FetchOutcome (Option (List SerperImageResult))
  news : FetchOutcome (Option (List SerperWebResult))
deriving DecidableEq, Repr

/-- One outbound HTTP request: POST to the category endpoint with JSON body
`{ q: searchQuery, num: maxResults }`. -/
structure SerperRequest where
  endpoint : ContentType
  q : String
  num : Nat
deriving DecidableEq, Repr

/-- The `options` argument of `search`. -/
structure SearchOptions where
  type : Option String
  content_types : Option (List ContentType)
deriving DecidableEq, Repr

namespace SerperSearchProvider

/-- Web item normalization (serper.ts lines 141–145): `title` and `snippet`
get falsy defaults, `url` is `result.link` verbatim. -/
def mapWebItem (result : SerperWebResult) : WebResultItem :=
  { title := orFalsy result.title "No title"
    url := result.link
    content := orFalsy result.snippet "No description available" }

/-- News item normalization (serper.ts lines 260–264), textually identical
to the web mapping. -/
def mapNewsItem (result : SerperWebResult) : WebResultItem :=
  { title := orFalsy result.title "No title"
    url := result.link
    content := orFalsy result.snippet "No description available" }

/-- Video item normalization (serper.ts lines 177–188): nullish defaults,
`position` is the zero-based map index, not the upstream value. -/
def mapVideoItem (index : Nat) (result : SerperVideoResult) : SerperSearchResultItem :=
  { title := orNullish result.title "No title"
    link := orNullish result.link ""
    snippet := orNullish result.snippet "No description available"
    imageUrl := orNullish result.imageUrl ""
    duration := orNullish result.duration ""
    source := orNullish result.source ""
    channel := orNullish result.channel ""
    date := orNullish result.date ""
    position := index }

/-- Image item normalization (serper.ts lines 221–226):
`thumbnailUrl := result.thumbnailUrl || result.imageUrl || ''`. -/
def mapImageItem (result : SerperImageResult) : SearchImageItem :=
  { title := orFalsy result.title "No title"
    link := orFalsy result.link ""
    thumbnailUrl := orFalsy result.thumbnailUrl (orFalsy result.imageUrl "") }

/-- Pipeline `(data.organic || []).slice(0, maxResults).map(...)` of the web handler. -/
def normalizeWebResults (data : Option (List SerperWebResult)) (maxResults : Nat) :
    List WebResultItem :=
  ((data.getD []).take maxResults).map mapWebItem

/-- Pipeline `(data.videos || []).slice(0, maxResults).map(...)` of the video handler. -/
def normalizeVideoResults (data : Option (List SerperVideoResult)) (maxResults : Nat) :
    List SerperSearchResultItem :=
  ((data.getD []).take maxResults).mapIdx mapVideoItem

/-- Pipeline `(data.images || []).slice(0, maxResults).map(...)` of the image handler. -/
def normalizeImageResults (data : Option (List SerperImageResult)) (maxResults : Nat) :
    List SearchImageItem :=
  ((data.getD []).take maxResults).map mapImageItem

/-- Pipeline `(data.news || []).slice(0, maxResults).map(...)` of the news handler. -/
def normalizeNewsResults (data : Option (List SerperWebResult)) (maxResults : Nat) :
    List WebResultItem :=
  ((data.getD []).take maxResults).map mapNewsItem

/-- Handler `searchWeb` (serper.ts lines 115–149): on success it assigns the
normalized items to `results.results`; every failure path ends in the
`catch`, which only logs, leaving the state unchanged. -/
def searchWeb (outcome : FetchOutcome (Option (List SerperWebResult)))
    (maxResults : Nat) (results : SearchResults) : SearchResults :=
  match outcome with
  | .failure => results
  | .success data => { results with results := normalizeWebResults data maxResults }

/-- Handler `searchVideos` (serper.ts lines 151–194): on success it assigns the
normalized items to `results.videos`; the `catch` resets `results.videos`
to the empty list. -/
def searchVideos (outcome : FetchOutcome (Option (List SerperVideoResult)))
    (maxResults : Nat) (results : SearchResults) : SearchResults :=
  match outcome with
  | .failure => { results with videos := [] }
  | .success data => { results with videos := normalizeVideoResults data maxResults }

/-- Handler `searchImages` (serper.ts lines 196–232): on success it assigns the
normalized items to `results.images`; the `catch` resets `results.images`
to the empty list. -/
def searchImages (outcome : FetchOutcome (Option (List SerperImageResult)))
    (maxResults : Nat) (results : SearchResults) : SearchResults :=
  match outcome with
  | .failure => { results with images := [] }
  | .success data => { results with images := normalizeImageResults data maxResults }

/-- Handler `searchNews` (serper.ts lines 234–271): on success it appends the
normalized items to `results.results`; a non-ok status returns early and an
exception is only logged, so every failure leaves the state unchanged. -/
def searchNews (outcome : FetchOutcome (Option (List SerperWebResult)))
    (maxResults : Nat) (results : SearchResults) : SearchResults :=
  match outcome with
  | .failure => results
  | .success data =>
      { results with results := results.results ++ normalizeNewsResults data maxResults }

/-- Include-domain rewrite (serper.ts lines 75–80): append
`(site:d1 OR site:d2 OR …)` when `includeDomains` is non-empty. -/
def applyIncludeFilter (query : String) (includeDomains : Option (List String)) : String :=
  match includeDomains with
  | none => query
  | some ds =>
      if ds.length > 0 then
        query ++ " (" ++ String.intercalate " OR " (ds.map (fun domain => "site:" ++ domain)) ++ ")"
      else query

/-- Exclude-domain rewrite (serper.ts lines 81–86): append space-separated
`-site:d` filters when `excludeDomains` is non-empty. -/
def applyExcludeFilter (searchQuery : String) (excludeDomains : Option (List String)) : String :=
  match excludeDomains with
  | none => searchQuery
  | some ds =>
      if ds.length > 0 then
        searchQuery ++ " " ++ String.intercalate " " (ds.map (fun domain => "-site:" ++ domain))
      else searchQuery

/-- The full query rewrite: include filter first, then the exclude filter on
the same working string. -/
def rewriteQuery (query : String) (includeDomains excludeDomains : Option (List String)) :
    String :=
  applyExcludeFilter (applyIncludeFilter query includeDomains) excludeDomains

/-- Resolution `options?.content_types || ['web']` (serper.ts line 64). A present but
empty list is truthy in JS, so it is kept as is; the `['web']` default
applies only when `options` or `content_types` is absent. -/
def resolveContentTypes (options : Option SearchOptions) : List ContentType :=
  match options with
  | none => [ContentType.web]
  | some o =>
      match o.content_types with
      | none => [ContentType.web]
      | some cts => cts

/-- The HTTP requests issued by the fan-out, in promise-creation order. -/
def fanoutRequests (contentTypes : List ContentType) (searchQuery : String)
    (maxResults : Nat) : List SerperRequest :=
  (if contentTypes.contains ContentType.web then
    [{ endpoint := ContentType.web, q := searchQuery, num := maxResults }] else []) ++
  (if contentTypes.contains ContentType.video then
    [{ endpoint := ContentType.video, q := searchQuery, num := maxResults }] else []) ++
  (if contentTypes.contains ContentType.image then
    [{ endpoint := ContentType.image, q := searchQuery, num := maxResults }] else []) ++
  (if contentTypes.contains ContentType.news then
    [{ endpoint := ContentType.news, q := searchQuery, num := maxResults }] else [])

/-- The category handlers' mutations of the shared `results` object, in the
documented completion order (web handler's assignment before the news
handler's append; videos/images own disjoint fields). -/
def runCategories (backend : Backend) (contentTypes : List ContentType)
    (maxResults : Nat) (results : SearchResults) : SearchResults :=
  let r1 := if contentTypes.contains ContentType.web then
    searchWeb backend.web maxResults results else results
  let r2 := if contentTypes.contains ContentType.video then
    searchVideos backend.videos maxResults r1 else r1
  let r3 := if contentTypes.contains ContentType.image then
    searchImages backend.images maxResults r2 else r2
  if contentTypes.contains ContentType.news then
    searchNews backend.news maxResults r3 else r3

/-- Operation `SerperSearchProvider.search` (serper.ts lines 49–113). Returns the list
of HTTP requests issued together with the call's outcome: the configuration
error when the API key is falsy, otherwise the aggregated `SearchResults`
with `number_of_results` set to the final length of `results.results`. -/
def search (apiKey : Option String) (backend : Backend) (query : String)
    (maxResults : Nat) (includeDomains : Option (List String))
    (excludeDomains : Option (List String)) (options : Option SearchOptions) :
    List SerperRequest × Except String SearchResults :=
  if isFalsyStr apiKey then
    ([], Except.error "Serper API key not configured")
  else
    let contentTypes := resolveContentTypes options
    let results : SearchResults :=
      { results := [], images := [], videos := [], query := query, number_of_results := 0 }
    let searchQuery := rewriteQuery query includeDomains excludeDomains
    let final := runCategories backend contentTypes maxResults results
    (fanoutRequests contentTypes searchQuery maxResults,
      Except.ok { final with number_of_results := final.results.length })

/-- Contents of `results.results` written by the web handler: the previous
list on failure, the normalized payload on success. -/
def webResults (outcome : FetchOutcome (Option (List SerperWebResult)))
    (maxResults : Nat) (prev : List WebResultItem) : List WebResultItem :=
  match outcome with
  | .failure => prev
  | .success data => normalizeWebResults data maxResults

/-- Contents of `results.videos` after the video handler runs. -/
def videosResult (outcome : FetchOutcome (Option (List SerperVideoResult)))
    (maxResults : Nat) : List SerperSearchResultItem :=
  match outcome with
  | .failure => []
  | .success data => normalizeVideoResults data maxResults

/-- Contents of `results.images` after the image handler runs. -/
def imagesResult (outcome : FetchOutcome (Option (List SerperImageResult)))
    (maxResults : Nat) : List SearchImageItem :=
  match outcome with
  | .failure => []
  | .success data => normalizeImageResults data maxResults

/-- Items the news handler appends to `results.results`. -/
def newsAppend (outcome : FetchOutcome (Option (List SerperWebResult)))
    (maxResults : Nat) : List WebResultItem :=
  match outcome with
  | .failure => []
  | .success data => normalizeNewsResults data maxResults

lemma searchWeb_results (o : FetchOutcome (Option (List SerperWebResult))) (m : Nat)
    (s : SearchResults) : (searchWeb o m s).results = webResults o m s.results := by
  cases o <;> rfl

lemma searchWeb_videos (o : FetchOutcome (Option (List SerperWebResult))) (m : Nat)
    (s : SearchResults) : (searchWeb o m s).videos = s.videos := by
  cases o <;> rfl

lemma searchWeb_images (o : FetchOutcome (Option (List SerperWebResult))) (m : Nat)
    (s : SearchResults) : (searchWeb o m s).images = s.images := by
  cases o <;> rfl

lemma searchWeb_query (o : FetchOutcome (Option (List SerperWebResult))) (m : Nat)
    (s : SearchResults) : (searchWeb o m s).query = s.query := by
  cases o <;> rfl

lemma searchVideos_results (o : FetchOutcome (Option (List SerperVideoResult))) (m : Nat)
    (s : SearchResults) : (searchVideos o m s).results = s.results := by
  cases o <;> rfl

lemma searchVideos_videos (o : FetchOutcome (Option (List SerperVideoResult))) (m : Nat)
    (s : SearchResults) : (searchVideos o m s).videos = videosResult o m := by
  cases o <;> rfl

lemma searchVideos_images (o : FetchOutcome (Option (List SerperVideoResult))) (m : Nat)
    (s : SearchResults) : (searchVideos o m s).images = s.images := by
  cases o <;> rfl

lemma searchVideos_query (o : FetchOutcome (Option (List SerperVideoResult))) (m : Nat)
    (s : SearchResults) : (searchVideos o m s).query = s.query := by
  cases o <;> rfl

lemma searchImages_results (o : FetchOutcome (Option (List SerperImageResult))) (m : Nat)
    (s : SearchResults) : (searchImages o m s).results = s.results := by
  cases o <;> rfl

lemma searchImages_videos (o : FetchOutcome (Option (List SerperImageResult))) (m : Nat)
    (s : SearchResults) : (searchImages o m s).videos = s.videos := by
  cases o <;> rfl

lemma searchImages_images (o : FetchOutcome (Option (List SerperImageResult))) (m : Nat)
    (s : SearchResults) : (searchImages o m s).images = imagesResult o m := by
  cases o <;> rfl

lemma searchImages_query (o : FetchOutcome (Option (List SerperImageResult))) (m : Nat)
    (s : SearchResults) : (searchImages o m s).query = s.query := by
  cases o <;> rfl

lemma searchNews_results (o : FetchOutcome (Option (List SerperWebResult))) (m : Nat)
    (s : SearchResults) : (searchNews o m s).results = s.results ++ newsAppend o m := by
  cases o <;> simp [searchNews, newsAppend]

lemma searchNews_videos (o : FetchOutcome (Option (List SerperWebResult))) (m : Nat)
    (s : SearchResults) : (searchNews o m s).videos = s.videos := by
  cases o <;> rfl

lemma searchNews_images (o : FetchOutcome (Option (List SerperWebResult))) (m : Nat)
    (s : SearchResults) : (searchNews o m s).images = s.images := by
  cases o <;> rfl

lemma searchNews_query (o : FetchOutcome (Option (List SerperWebResult))) (m : Nat)
    (s : SearchResults) : (searchNews o m s).query = s.query := by
  cases o <;> rfl

lemma runCategories_query (b : Backend) (cts : List ContentType) (m : Nat)
    (s : SearchResults) : (runCategories b cts m s).query = s.query := by
  unfold runCategories
  by_cases h1 : ContentType.web ∈ cts <;>
    by_cases h2 : ContentType.video ∈ cts <;>
      by_cases h3 : ContentType.image ∈ cts <;>
        by_cases h4 : ContentType.news ∈ cts <;>
          simp [h1, h2, h3, h4, searchWeb_query, searchVideos_query, searchImages_query,
            searchNews_query]

lemma runCategories_results (b : Backend) (cts : List ContentType) (m : Nat)
    (s : SearchResults) :
    (runCategories b cts m s).results =
      (if cts.contains ContentType.web then webResults b.web m s.results else s.results) ++
      (if cts.contains ContentType.news then newsAppend b.news m else []) := by
  unfold runCategories
  by_cases h1 : ContentType.web ∈ cts <;>
    by_cases h2 : ContentType.video ∈ cts <;>
      by_cases h3 : ContentType.image ∈ cts <;>
        by_cases h4 : ContentType.news ∈ cts <;>
          simp [h1, h2, h3, h4, searchWeb_results, searchVideos_results, searchImages_results,
            searchNews_results]

lemma runCategories_videos (b : Backend) (cts : List ContentType) (m : Nat)
    (s : SearchResults) :
    (runCategories b cts m s).videos =
      if cts.contains ContentType.video then videosResult b.videos m else s.videos := by
  unfold runCategories
  by_cases h1 : ContentType.web ∈ cts <;>
    by_cases h2 : ContentType.video ∈ cts <;>
      by_cases h3 : ContentType.image ∈ cts <;>
        by_cases h4 : ContentType.news ∈ cts <;>
          simp [h1, h2, h3, h4, searchWeb_videos, searchVideos_videos, searchImages_videos,
            searchNews_videos]

lemma runCategories_images (b : Backend) (cts : List ContentType) (m : Nat)
    (s : SearchResults) :
    (runCategories b cts m s).images =
      if cts.contains ContentType.image then imagesResult b.images m else s.images := by
  unfold runCategories
  by_cases h1 : ContentType.web ∈ cts <;>
    by_cases h2 : ContentType.video ∈ cts <;>
      by_cases h3 : ContentType.image ∈ cts <;>
        by_cases h4 : ContentType.news ∈ cts <;>
          simp [h1, h2, h3, h4, searchWeb_images, searchVideos_images, searchImages_images,
            searchNews_images]

/-- The initial `results` object of a `search` call (serper.ts lines 65–71). -/
def initResults (query : String) : SearchResults :=
  { results := [], images := [], videos := [], query := query, number_of_results := 0 }

lemma search_eq_ok (apiKey : Option String) (b : Backend) (q : String) (m : Nat)
    (incl excl : Option (List String)) (o : Option SearchOptions)
    (h : isFalsyStr apiKey = false) :
    search apiKey b q m incl excl o =
      (fanoutRequests (resolveContentTypes o) (rewriteQuery q incl excl) m,
        Except.ok
          { runCategories b (resolveContentTypes o) m (initResults q) with
            number_of_results :=
              (runCategories b (resolveContentTypes o) m (initResults q)).results.length }) := by
  simp [search, h, initResults]

lemma append_merge (s t u x : String) (h : s ++ t = u) : s ++ (t ++ x) = u ++ x := by
  rw [← String.append_assoc, h]

end SerperSearchProvider

open SerperSearchProvider

/-- C1: for every input, if the backend API credential is not configured
(absent or empty, i.e. falsy), `search` fails with the configuration error
and issues zero network calls: the request list is empty and the outcome is
the error, returned before any category handler runs. -/
theorem search_missing_credential_fails (apiKey : Option String) (backend : Backend)
    (query : String) (maxResults : Nat) (includeDomains excludeDomains : Option (List String))
    (options : Option SearchOptions) (h : isFalsyStr apiKey = true) :
    search apiKey backend query maxResults includeDomains excludeDomains options =
      ([], Except.error "Serper API key not configured") := by
  simp [search, h]

/-- C1 witness: a concrete call with no API key fails with the configuration
error and an empty request list. -/
theorem search_missing_credential_fails_witness :
    search none
        { web := FetchOutcome.failure, videos := FetchOutcome.failure,
          images := FetchOutcome.failure, news := FetchOutcome.failure }
        "q" 10 none none none =
      ([], Except.error "Serper API key not configured") :=
  search_missing_credential_fails none
    { web := FetchOutcome.failure, videos := FetchOutcome.failure,
      images := FetchOutcome.failure, news := FetchOutcome.failure }
    "q" 10 none none none rfl

/-- C5: for every successful category response, the number of normalized
items produced for that category (web, video, image, news) is at most
`maxResults`, even when the upstream payload contains more items. -/
theorem category_counts_le_maxResults (dw dn : Option (List SerperWebResult))
    (dv : Option (List SerperVideoResult)) (di : Option (List SerperImageResult)) (m : Nat) :
    (normalizeWebResults dw m).length ≤ m ∧ (normalizeVideoResults dv m).length ≤ m ∧
    (normalizeImageResults di m).length ≤ m ∧ (normalizeNewsResults dn m).length ≤ m := by
  refine ⟨?_, ?_, ?_, ?_⟩ <;>
    simp [normalizeWebResults, normalizeVideoResults, normalizeImageResults,
      normalizeNewsResults, List.length_mapIdx, List.length_take]

/-- C6: for every input and every combination of per-category outcomes, a
successful `search` returns `number_of_results` equal to the length of
`results.results` exactly (images and videos are never counted). -/
theorem number_of_results_invariant (apiKey : Option String) (backend : Backend)
    (query : String) (maxResults : Nat) (incl excl : Option (List String))
    (options : Option SearchOptions) (r : SearchResults)
    (h : (search apiKey backend query maxResults incl excl options).2 = Except.ok r) :
    r.number_of_results = r.results.length := by
  by_cases hk : isFalsyStr apiKey = true
  · rw [search] at h
    simp [hk] at h
  · have hk' : isFalsyStr apiKey = false := by simpa using hk
    have hs := search_eq_ok apiKey backend query maxResults incl excl options hk'
    have h2 := congrArg Prod.snd hs
    rw [h2] at h
    simp only [Except.ok.injEq] at h
    subst h
    rfl

/-- C6 witness: a concrete successful call whose `number_of_results` equals
the length of its `results` list. -/
theorem number_of_results_invariant_witness :
    ({ results := [], images := [], videos := [], query := "q", number_of_results := 0 } :
        SearchResults).number_of_results =
      ({ results := [], images := [], videos := [], query := "q",
          number_of_results := 0 } : SearchResults).results.length :=
  number_of_results_invariant (some "k")
    { web := FetchOutcome.failure, videos := FetchOutcome.failure,
      images := FetchOutcome.failure, news := FetchOutcome.failure }
    "q" 10 none none none
    { results := [], images := [], videos := [], query := "q", number_of_results := 0 } rfl

/-- C7: for every upstream image item that lacks a `thumbnailUrl` but has an
`imageUrl`, the normalized item's `thumbnailUrl` equals that `imageUrl`
value. -/
theorem image_thumbnail_fallback (r : SerperImageResult) (u : String)
    (ht : r.thumbnailUrl = none) (hu : r.imageUrl = some u) :
    (mapImageItem r).thumbnailUrl = u := by
  simp only [mapImageItem, ht, hu, orFalsy]
  by_cases hu0 : u = "" <;> simp [hu0]

/-- C7 witness: a concrete image item with no thumbnail normalizes to its
full image URL. -/
theorem image_thumbnail_fallback_witness :
    (mapImageItem
        { title := some "t", imageUrl := some "http://img", imageWidth := none,
          imageHeight := none, thumbnailUrl := none, thumbnailWidth := none,
          thumbnailHeight := none, source := none, domain := none, link := some "l",
          position := none }).thumbnailUrl = "http://img" :=
  image_thumbnail_fallback
    { title := some "t", imageUrl := some "http://img", imageWidth := none,
      imageHeight := none, thumbnailUrl := none, thumbnailWidth := none,
      thumbnailHeight := none, source := none, domain := none, link := some "l",
      position := none }
    "http://img" rfl rfl

/-- C9: when `options.content_types` is supplied but empty, `search` issues
no requests and returns the empty aggregate with the original query and
zero count; the `[web]` default applies only when `content_types` (or
`options`) is entirely absent. -/
theorem empty_content_types_no_requests (apiKey : Option String) (backend : Backend)
    (query : String) (maxResults : Nat) (incl excl : Option (List String)) (t : Option String)
    (h : isFalsyStr apiKey = false) :
    search apiKey backend query maxResults incl excl
        (some { type := t, content_types := some [] }) =
      ([],
        Except.ok
          { results := [], images := [], videos := [], query := query,
            number_of_results := 0 }) ∧
    resolveContentTypes none = [ContentType.web] ∧
    resolveContentTypes (some { type := t, content_types := none }) = [ContentType.web] := by
  refine ⟨?_, rfl, rfl⟩
  rw [search_eq_ok apiKey backend query maxResults incl excl
    (some { type := t, content_types := some [] }) h]
  rfl

/-- C9 witness: a concrete call with an empty `content_types` issues no
requests and returns the empty aggregate. -/
theorem empty_content_types_no_requests_witness :
    search (some "k")
        { web := FetchOutcome.failure, videos := FetchOutcome.failure,
          images := FetchOutcome.failure, news := FetchOutcome.failure }
        "q" 5 none none (some { type := none, content_types := some [] }) =
      ([],
        Except.ok
          { results := [], images := [], videos := [], query := "q",
            number_of_results := 0 }) ∧
    resolveContentTypes none = [ContentType.web] ∧
    resolveContentTypes (some { type := none, content_types := none }) = [ContentType.web] :=
  empty_content_types_no_requests (some "k")
    { web := FetchOutcome.failure, videos := FetchOutcome.failure,
      images := FetchOutcome.failure, news := FetchOutcome.failure }
    "q" 5 none none none rfl

/-- C10: for every web or news upstream item, the normalized `url` is the
upstream `link` copied verbatim with no default (absent stays absent),
while `title` and `content` receive their documented defaults both when the
upstream field is absent and when it is the empty string. -/
theorem web_news_url_verbatim (r : SerperWebResult) :
    (mapWebItem r).url = r.link ∧ (mapNewsItem r).url = r.link ∧
    ((r.title = none ∨ r.title = some "") →
      (mapWebItem r).title = "No title" ∧ (mapNewsItem r).title = "No title") ∧
    ((r.snippet = none ∨ r.snippet = some "") →
      (mapWebItem r).content = "No description available" ∧
        (mapNewsItem r).content = "No description available") := by
  refine ⟨rfl, rfl, ?_, ?_⟩ <;> rintro (h | h) <;> simp [mapWebItem, mapNewsItem, orFalsy, h]

/-- C10 witness: a concrete item with empty-string title, absent snippet
and absent link keeps `url` absent and receives both text defaults. -/
theorem web_news_url_verbatim_witness :
    (mapWebItem { title := some "", link := none, snippet := none, position := none }).url =
      none ∧
    (mapWebItem
      { title := some "", link := none, snippet := none,
        position := none }).title = "No title" ∧
    (mapNewsItem
      { title := some "", link := none, snippet := none,
        position := none }).content = "No description available" := by
  refine ⟨(web_news_url_verbatim
      { title := some "", link := none, snippet := none, position := none }).1, ?_, ?_⟩
  · exact ((web_news_url_verbatim
      { title := some "", link := none, snippet := none, position := none }).2.2.1
        (Or.inr rfl)).1
  · exact ((web_news_url_verbatim
      { title := some "", link := none, snippet := none, position := none }).2.2.2
        (Or.inl rfl)).2

/-- C2: for every input with the credential configured, `search` resolves
with a `SearchResults` value no matter which categories' fetches fail; a
failing video or image category yields an empty list for that category, and
the merged `results` (and its count) depend only on the web and news
outcomes, so other categories' failures leave them unaffected. -/
theorem search_isolates_category_failures (apiKey : Option String) (backend : Backend)
    (query : String) (maxResults : Nat) (incl excl : Option (List String))
    (options : Option SearchOptions) (h : isFalsyStr apiKey = false) :
    ∃ r : SearchResults,
      (search apiKey backend query maxResults incl excl options).2 = Except.ok r ∧
      (backend.videos = FetchOutcome.failure → r.videos = []) ∧
      (backend.images = FetchOutcome.failure → r.images = []) ∧
      ∀ b' : Backend, b'.web = backend.web → b'.news = backend.news →
        ∃ r' : SearchResults,
          (search apiKey b' query maxResults incl excl options).2 = Except.ok r' ∧
          r'.results = r.results ∧ r'.number_of_results = r.number_of_results := by
  have hs := search_eq_ok apiKey backend query maxResults incl excl options h
  refine ⟨_, congrArg Prod.snd hs, ?_, ?_, ?_⟩
  · intro hv
    simp [runCategories_videos, hv, videosResult, initResults]
  · intro hi
    simp [runCategories_images, hi, imagesResult, initResults]
  · intro b' hw hn
    have hs' := search_eq_ok apiKey b' query maxResults incl excl options h
    refine ⟨_, congrArg Prod.snd hs', ?_, ?_⟩
    · simp [runCategories_results, hw, hn]
    · simp [runCategories_results, hw, hn]

/-- C2 witness: with the credential set and a failing video backend, a
concrete call still resolves and its `videos` list is empty. -/
theorem search_isolates_category_failures_witness :
    ∃ r : SearchResults,
      (search (some "k")
          { web := FetchOutcome.success (some []), videos := FetchOutcome.failure,
            images := FetchOutcome.failure, news := FetchOutcome.success (some []) }
          "q" 3 none none
          (some
            { type := none,
              content_types := some [ContentType.web, ContentType.video, ContentType.image,
                ContentType.news] })).2 = Except.ok r ∧
      r.videos = [] ∧ r.images = [] := by
  obtain ⟨r, h1, h2, h3, _⟩ := search_isolates_category_failures (some "k")
    { web := FetchOutcome.success (some []), videos := FetchOutcome.failure,
      images := FetchOutcome.failure, news := FetchOutcome.success (some []) }
    "q" 3 none none
    (some
      { type := none,
        content_types := some [ContentType.web, ContentType.video, ContentType.image,
          ContentType.news] }) rfl
  exact ⟨r, h1, h2 rfl, h3 rfl⟩

/-- C3: when web and news are both active, video and image are not, and both
the web and news backends succeed, `search` resolves with `results` equal to
the normalized web items followed by the normalized news items (each
sub-list in upstream order, truncated to `maxResults`), `number_of_results`
equal to their total, and empty `images` and `videos`. -/
theorem web_news_merge_order (apiKey : Option String) (backend : Backend) (query : String)
    (maxResults : Nat) (incl excl : Option (List String)) (t : Option String)
    (cts : List ContentType) (pw pn : Option (List SerperWebResult))
    (h : isFalsyStr apiKey = false)
    (hw : ContentType.web ∈ cts) (hn : ContentType.news ∈ cts)
    (hv : ContentType.video ∉ cts) (hi : ContentType.image ∉ cts)
    (hbw : backend.web = FetchOutcome.success pw)
    (hbn : backend.news = FetchOutcome.success pn) :
    ∃ r : SearchResults,
      (search apiKey backend query maxResults incl excl
          (some { type := t, content_types := some cts })).2 = Except.ok r ∧
      r.results = normalizeWebResults pw maxResults ++ normalizeNewsResults pn maxResults ∧
      r.number_of_results =
        (normalizeWebResults pw maxResults).length +
          (normalizeNewsResults pn maxResults).length ∧
      r.images = [] ∧ r.videos = [] := by
  have hs := search_eq_ok apiKey backend query maxResults incl excl
    (some { type := t, content_types := some cts }) h
  refine ⟨_, congrArg Prod.snd hs, ?_, ?_, ?_, ?_⟩
  · simp [runCategories_results, resolveContentTypes, hw, hn, hbw, hbn, webResults,
      newsAppend, initResults]
  · simp [runCategories_results, resolveContentTypes, hw, hn, hbw, hbn, webResults,
      newsAppend, initResults]
  · simp [runCategories_images, resolveContentTypes, hi, initResults]
  · simp [runCategories_videos, resolveContentTypes, hv, initResults]

/-- C3 witness: with two web items and one news item, a concrete call
returns three merged items, web before news, count three, and empty image
and video lists. -/
theorem web_news_merge_order_witness :
    ∃ r : SearchResults,
      (search (some "k")
          { web := FetchOutcome.success (some
              [{ title := some "w1", link := some "u1", snippet := some "s1",
                 position := none },
               { title := some "w2", link := some "u2", snippet := some "s2",
                 position := none }]),
            videos := FetchOutcome.failure, images := FetchOutcome.failure,
            news := FetchOutcome.success (some
              [{ title := some "n1", link := some "u3", snippet := some "s3",
                 position := none }]) }
          "q" 10 none none
          (some
            { type := none,
              content_types := some [ContentType.web, ContentType.news] })).2 =
        Except.ok r ∧
      r.results =
        [{ title := "w1", url := some "u1", content := "s1" },
         { title := "w2", url := some "u2", content := "s2" },
         { title := "n1", url := some "u3", content := "s3" }] ∧
      r.number_of_results = 3 ∧ r.images = [] ∧ r.videos = [] := by
  obtain ⟨r, h1, h2, h3, h4, h5⟩ := web_news_merge_order (some "k")
    { web := FetchOutcome.success (some
        [{ title := some "w1", link := some "u1", snippet := some "s1", position := none },
         { title := some "w2", link := some "u2", snippet := some "s2", position := none }]),
      videos := FetchOutcome.failure, images := FetchOutcome.failure,
      news := FetchOutcome.success (some
        [{ title := some "n1", link := some "u3", snippet := some "s3", position := none }]) }
    "q" 10 none none none [ContentType.web, ContentType.news]
    (some [{ title := some "w1", link := some "u1", snippet := some "s1", position := none },
           { title := some "w2", link := some "u2", snippet := some "s2", position := none }])
    (some [{ title := some "n1", link := some "u3", snippet := some "s3", position := none }])
    rfl (by decide) (by decide) (by decide) (by decide) rfl rfl
  refine ⟨r, h1, ?_, ?_, h4, h5⟩
  · rw [h2]; rfl
  · rw [h3]; rfl

/-- C8: for every successful video response, the `position` field of the
`i`-th normalized video item equals `i`, its zero-based index in the video
list, regardless of any upstream position value. -/
theorem video_position_is_index (data : Option (List SerperVideoResult)) (maxResults i : Nat)
    (h : i < (normalizeVideoResults data maxResults).length) :
    ((normalizeVideoResults data maxResults).get ⟨i, h⟩).position = i := by
  simp [normalizeVideoResults, List.get_eq_getElem, List.getElem_mapIdx, mapVideoItem]

/-- C8 witness: the second normalized item of a concrete payload whose
upstream positions are 7 and 9 has position 1. -/
theorem video_position_is_index_witness :
    ((normalizeVideoResults (some
        [{ title := some "a", link := none, snippet := none, imageUrl := none,
           duration := none, source := none, channel := none, date := none,
           position := some 7 },
         { title := some "b", link := none, snippet := none, imageUrl := none,
           duration := none, source := none, channel := none, date := none,
           position := some 9 }]) 5).get ⟨1, by decide⟩).position = 1 :=
  video_position_is_index (some
    [{ title := some "a", link := none, snippet := none, imageUrl := none,
       duration := none, source := none, channel := none, date := none,
       position := some 7 },
     { title := some "b", link := none, snippet := none, imageUrl := none,
       duration := none, source := none, channel := none, date := none,
       position := some 9 }]) 5 1 (by decide)

lemma rewriteQuery_pair (query a b c : String) :
    rewriteQuery query (some [a, b]) (some [c]) =
      (query ++ " ") ++ ("(site:" ++ a ++ " OR site:" ++ b ++ ")") ++ (" -site:" ++ c) := by
  simp only [rewriteQuery, applyIncludeFilter, applyExcludeFilter, List.map_cons, List.map_nil,
    List.length_cons, List.length_nil]
  norm_num
  simp only [String.intercalate, String.intercalate.go, String.append_assoc]
  rw [append_merge " (" "site:" " (site:" _ rfl,
      append_merge " OR " "site:" " OR site:" _ rfl,
      append_merge " " "-site:" " -site:" _ rfl,
      append_merge " " "(site:" " (site:" _ rfl]

lemma fanoutRequests_q (cts : List ContentType) (sq : String) (m : Nat) :
    ∀ req ∈ fanoutRequests cts sq m, req.q = sq := by
  intro req hreq
  unfold fanoutRequests at hreq
  split_ifs at hreq <;> simp_all <;> casesm* _ ∨ _ <;> simp_all

/-- C4: with `includeDomains = [a, b]` and `excludeDomains = [c]`, the query
sent to every backend endpoint contains the substring `(site:a OR site:b)`
(domains in input order) and the substring `-site:c`; the rewrite applies
the include filter first and then the exclude filter on the same working
string; and the `query` field of a successful result always equals the
caller's original query verbatim, never the rewritten form. -/
theorem domain_filter_rewrite (apiKey : Option String) (backend : Backend)
    (query a b c : String) (maxResults : Nat) (options : Option SearchOptions)
    (h : isFalsyStr apiKey = false) :
    (∃ p s, rewriteQuery query (some [a, b]) (some [c]) =
      p ++ ("(site:" ++ a ++ " OR site:" ++ b ++ ")") ++ s) ∧
    (∃ p, rewriteQuery query (some [a, b]) (some [c]) = p ++ ("-site:" ++ c)) ∧
    rewriteQuery query (some [a, b]) (some [c]) =
      applyExcludeFilter (applyIncludeFilter query (some [a, b])) (some [c]) ∧
    (∀ req ∈ (search apiKey backend query maxResults (some [a, b]) (some [c]) options).1,
      req.q = rewriteQuery query (some [a, b]) (some [c])) ∧
    ∀ r : SearchResults,
      (search apiKey backend query maxResults (some [a, b]) (some [c]) options).2 =
        Except.ok r → r.query = query := by
  have hs := search_eq_ok apiKey backend query maxResults (some [a, b]) (some [c]) options h
  refine ⟨⟨query ++ " ", " -site:" ++ c, rewriteQuery_pair query a b c⟩, ?_, rfl, ?_, ?_⟩
  · refine ⟨(query ++ " ") ++ ("(site:" ++ a ++ " OR site:" ++ b ++ ")") ++ " ", ?_⟩
    rw [rewriteQuery_pair query a b c]
    simp only [String.append_assoc]
    rw [append_merge " " "-site:" " -site:" _ rfl]
  · intro req hreq
    have h1 := congrArg Prod.fst hs
    rw [h1] at hreq
    exact fanoutRequests_q _ _ _ req hreq
  · intro r hr
    have h2 := congrArg Prod.snd hs
    rw [h2] at hr
    simp only [Except.ok.injEq] at hr
    subst hr
    simp [runCategories_query, initResults]

/-- C4 witness: a concrete rewrite yields
`q (site:a.com OR site:b.org) -site:c.net`, and the result's `query` field
of a concrete call is still the original `q`. -/
theorem domain_filter_rewrite_witness :
    rewriteQuery "q" (some ["a.com", "b.org"]) (some ["c.net"]) =
      "q (site:a.com OR site:b.org) -site:c.net" ∧
    ∃ r : SearchResults,
      (search (some "k")
          { web := FetchOutcome.failure, videos := FetchOutcome.failure,
            images := FetchOutcome.failure, news := FetchOutcome.failure }
          "q" 10 (some ["a.com", "b.org"]) (some ["c.net"]) none).2 = Except.ok r ∧
      r.query = "q" := by
  constructor
  · rfl
  · obtain ⟨h1, h2, h3, h4, h5⟩ := domain_filter_rewrite (some "k")
      { web := FetchOutcome.failure, videos := FetchOutcome.failure,
        images := FetchOutcome.failure, news := FetchOutcome.failure }
      "q" "a.com" "b.org" "c.net" 10 none rfl
    exact ⟨_, rfl, h5 _ rfl⟩
